import Mathlib

/-!
Verification development for the double-485-bus Modbus bridge
(`modbus_bridge.py`).

The bridge owns two persistent upstream TCP connections ("NPort 1", the
primary bus device, and "NPort 2", the secondary participant), serializes
every write+read exchange against NPort 1 under a single `asyncio.Lock`
(`bus_lock`), and runs two forwarding loops:

* `bridge_tcp_to_nport1` — one instance per accepted TCP client
  (a client session loop);
* `bridge_nport2_to_nport1` — one long-running secondary bridge loop.

The embedding below models the connection state (presence of the four
stream handles), the per-iteration bodies of both loops as functions of an
I/O oracle (the outcome each network operation would have), the trace of
bus-relevant events each iteration emits, and an interleaving semantics of
several tasks contending for the bus lock.  Configuration loading
(`load_config`) is modelled as a pure function of the environment.
-/

namespace ModbusBridge

/-! ### Configuration (`load_config`, lines 320-343)

`load_config` reads seven environment variables, applying string defaults,
and converts the four numeric ones with Python `int()`; a `ValueError`
triggers `sys.exit(1)`.  We model the environment as an association list,
`int()` on the relevant strings as `pyInt`, and `sys.exit(1)` as
`Except.error 1`. -/

/-- Value of a decimal digit run: `none` if empty or not all digits,
otherwise the base-10 value.  Used by `pyInt`. -/
def decDigits? (cs : List Char) : Option Nat :=
  if cs ≠ [] ∧ cs.all (fun c => c.isDigit) then
    some (cs.foldl (fun a c => a * 10 + (c.toNat - 48)) 0)
  else none

/-- Leading and trailing whitespace stripped from a character list (the
stripping `int()` applies to its argument). -/
def pyTrim (cs : List Char) : List Char :=
  ((cs.dropWhile Char.isWhitespace).reverse.dropWhile Char.isWhitespace).reverse

/-- Model of Python `int(s)` for a decimal string: surrounding whitespace
stripped, optional single sign, then a nonempty digit run; anything else
raises `ValueError`, modelled as `none`. -/
def pyInt (s : String) : Option Int :=
  match pyTrim s.toList with
  | '+' :: cs => (decDigits? cs).map (fun n => (n : Int))
  | '-' :: cs => (decDigits? cs).map (fun n => -(n : Int))
  | cs => (decDigits? cs).map (fun n => (n : Int))

/-- Model of `os.getenv(key, dflt)` over an association-list environment. -/
def getenv (env : List (String × String)) (key dflt : String) : String :=
  match env.find? (fun p => p.1 == key) with
  | some p => p.2
  | none => dflt

/-- The configuration dictionary built by `load_config`. -/
structure Config where
  nport1_host : String
  nport1_port : Int
  nport2_host : String
  nport2_port : Int
  listen_host : String
  listen_port : Int
  timeout : Int
deriving DecidableEq, Repr

/-- `int(os.getenv(key, dflt))`: a `ValueError` becomes exit code 1. -/
def intEnv (env : List (String × String)) (key dflt : String) : Except Nat Int :=
  match pyInt (getenv env key dflt) with
  | some n => Except.ok n
  | none => Except.error 1

/-- `load_config` (lines 320-343): builds the config dictionary; any
`ValueError` from one of the four `int(...)` conversions reaches the
`except ValueError` handler, which calls `sys.exit(1)` — modelled as
`Except.error 1` (the exit status).  No dictionary is produced then. -/
def load_config (env : List (String × String)) : Except Nat Config :=
  match intEnv env "NPORT1_PORT" "4001", intEnv env "NPORT2_PORT" "4002",
        intEnv env "LISTEN_PORT" "5020", intEnv env "MODBUS_TIMEOUT" "3" with
  | Except.ok p1, Except.ok p2, Except.ok lp, Except.ok t =>
      Except.ok {
        nport1_host := getenv env "NPORT1_HOST" "192.168.1.100"
        nport1_port := p1
        nport2_host := getenv env "NPORT2_HOST" "192.168.1.101"
        nport2_port := p2
        listen_host := getenv env "LISTEN_HOST" "0.0.0.0"
        listen_port := lp
        timeout := t }
  | _, _, _, _ => Except.error 1

/-! ### Connection state and endpoint operations (lines 60-101)

The four stream handles (`nport1_reader`, `nport1_writer`, `nport2_reader`,
`nport2_writer`) are each `None` or a live object; we record presence as a
`Bool`.  `connect_nportN` performs one `open_connection` attempt whose
outcome the caller's oracle supplies: on success the tuple assignment sets
both handles at once, on an exception neither is assigned. -/

structure ConnState where
  nport1_reader : Bool
  nport1_writer : Bool
  nport2_reader : Bool
  nport2_writer : Bool
deriving DecidableEq, Repr

/-- `connect_nport1` (lines 67-79): one connection attempt; on success both
NPort 1 handles are assigned together and `True` is returned, on failure
the exception is caught, nothing is assigned, and `False` is returned. -/
def connect_nport1 (ok : Bool) (s : ConnState) : Bool × ConnState :=
  if ok then (true, { s with nport1_reader := true, nport1_writer := true })
  else (false, s)

/-- `connect_nport2` (lines 89-101): same shape for the NPort 2 handles. -/
def connect_nport2 (ok : Bool) (s : ConnState) : Bool × ConnState :=
  if ok then (true, { s with nport2_reader := true, nport2_writer := true })
  else (false, s)

/-- Result of `ensure_nport1_connected`: returned Bool, post-state, and how
many `connect_nport1` attempts were made. -/
structure EnsureResult where
  success : Bool
  state : ConnState
  attempts : Nat
deriving DecidableEq, Repr

/-- `ensure_nport1_connected` (lines 81-87): returns `True` at once when
both handles are present (no connect attempt); otherwise delegates to a
single `connect_nport1` call. -/
def ensure_nport1_connected (ok : Bool) (s : ConnState) : EnsureResult :=
  if s.nport1_writer && s.nport1_reader then ⟨true, s, 0⟩
  else
    let c := connect_nport1 ok s
    ⟨c.1, c.2, 1⟩

/-- Both NPort 1 handles are cleared together (`self.nport1_reader = None;
self.nport1_writer = None`, lines 161-162 and 244-245). -/
def clear_nport1 (s : ConnState) : ConnState :=
  { s with nport1_reader := false, nport1_writer := false }

/-- Both NPort 2 handles are cleared together (lines 201-202 and 259-260). -/
def clear_nport2 (s : ConnState) : ConnState :=
  { s with nport2_reader := false, nport2_writer := false }

/-! ### I/O oracles and bus-event traces -/

/-- Outcome of one bounded read (`asyncio.wait_for(reader.read(1024), t)`):
delivered bytes (possibly empty — peer closed), a `TimeoutError`, or some
other exception. -/
inductive RdRes
  | data (bs : List Nat)
  | timeout
  | exc
deriving DecidableEq, Repr

/-- Outcome of one write+drain: accepted, or an exception (including a
`TimeoutError` from `wait_for(drain, ...)`, which the loops' generic
`except Exception` handlers catch). -/
inductive WRes
  | ok
  | exc
deriving DecidableEq, Repr

/-- Bus-relevant atomic events one loop iteration performs, in order:
`ensure` is an `ensure_nport1_connected` call (possibly connecting),
`acquire`/`release` delimit the `async with self.bus_lock` block,
`primWrite`/`primRead` are the exchange on NPort 1, and `fwd` is the
attempt to forward the reply back to the requester. -/
inductive BusEv
  | ensure
  | acquire
  | primWrite
  | primRead
  | fwd
  | release
deriving DecidableEq, Repr

/-- Lock discipline of an event trace, given whether the bus lock is held
at its start: `acquire` only when free, `release` only when held, `ensure`
only while free, exchange operations only while held, and the trace ends
with the lock free.  `lockWF false tr = true` says every acquisition in
`tr` is matched by a release, connects happen outside the critical
section, and primary writes/reads happen inside it. -/
def lockWF : Bool → List BusEv → Bool
  | b, [] => !b
  | b, BusEv.acquire :: r => !b && lockWF true r
  | b, BusEv.release :: r => b && lockWF false r
  | b, BusEv.ensure :: r => !b && lockWF b r
  | b, BusEv.primWrite :: r => b && lockWF b r
  | b, BusEv.primRead :: r => b && lockWF b r
  | b, BusEv.fwd :: r => b && lockWF b r

/-! ### Client session loop (`bridge_tcp_to_nport1`, lines 103-171)

One iteration of the `while self.running` body, as a function of the
shared connection state and an oracle giving each network operation's
outcome.  `outcome = ended` means the iteration leaves the loop (the
`finally` block closes the client socket and the session is over);
`continued` means control returns to the top of the loop. -/

inductive Outcome
  | ended
  | continued
deriving DecidableEq, Repr

/-- Oracle for one client-session iteration: outcome of the client read
(line 118), of the connect attempt `ensure_nport1_connected` may make, of
the NPort 1 write+drain (lines 136-140), of the NPort 1 reply read
(lines 145-148), and of the reply write+drain to the client
(lines 153-154). -/
structure SessOracle where
  clientRead : RdRes
  connectOk : Bool
  primWrite : WRes
  primRead : RdRes
  clientReply : WRes
deriving DecidableEq, Repr

structure SessResult where
  outcome : Outcome
  state : ConnState
  trace : List BusEv
  responseSent : Bool
deriving DecidableEq, Repr

/-- One iteration of `bridge_tcp_to_nport1`'s loop body (lines 116-162),
plus the enclosing handlers (lines 164-171):

* client read `TimeoutError` or other exception → caught by the outer
  handlers, session ends, nothing else touched;
* empty client read → `break` (line 122), session ends;
* data: `ensure_nport1_connected`; on failure `continue` (line 130);
* otherwise `async with self.bus_lock`: write+drain to NPort 1 — an
  exception (including a drain timeout) reaches `except Exception`
  (line 158), which clears both NPort 1 handles; on success read the
  reply — a `TimeoutError` is only logged (line 156), another exception
  clears the NPort 1 handles, an empty reply is not forwarded
  (`if response:`), and a nonempty reply is written back to the client —
  an exception *there* is also caught by line 158's handler and clears
  the NPort 1 handles.  Every path through the `async with` block
  releases the lock and continues the loop. -/
def sessIter (o : SessOracle) (s : ConnState) : SessResult :=
  match o.clientRead with
  | RdRes.timeout => ⟨Outcome.ended, s, [], false⟩
  | RdRes.exc => ⟨Outcome.ended, s, [], false⟩
  | RdRes.data [] => ⟨Outcome.ended, s, [], false⟩
  | RdRes.data (_ :: _) =>
    let e := ensure_nport1_connected o.connectOk s
    if e.success then
      match o.primWrite with
      | WRes.exc =>
          ⟨Outcome.continued, clear_nport1 e.state,
            [BusEv.ensure, BusEv.acquire, BusEv.primWrite, BusEv.release], false⟩
      | WRes.ok =>
        match o.primRead with
        | RdRes.timeout =>
            ⟨Outcome.continued, e.state,
              [BusEv.ensure, BusEv.acquire, BusEv.primWrite, BusEv.primRead,
                BusEv.release], false⟩
        | RdRes.exc =>
            ⟨Outcome.continued, clear_nport1 e.state,
              [BusEv.ensure, BusEv.acquire, BusEv.primWrite, BusEv.primRead,
                BusEv.release], false⟩
        | RdRes.data [] =>
            ⟨Outcome.continued, e.state,
              [BusEv.ensure, BusEv.acquire, BusEv.primWrite, BusEv.primRead,
                BusEv.release], false⟩
        | RdRes.data (_ :: _) =>
          match o.clientReply with
          | WRes.ok =>
              ⟨Outcome.continued, e.state,
                [BusEv.ensure, BusEv.acquire, BusEv.primWrite, BusEv.primRead,
                  BusEv.fwd, BusEv.release], true⟩
          | WRes.exc =>
              ⟨Outcome.continued, clear_nport1 e.state,
                [BusEv.ensure, BusEv.acquire, BusEv.primWrite, BusEv.primRead,
                  BusEv.fwd, BusEv.release], false⟩
    else ⟨Outcome.continued, e.state, [BusEv.ensure], false⟩

/-! ### Secondary bridge loop (`bridge_nport2_to_nport1`, lines 173-261) -/

/-- Oracle for one secondary-loop iteration: outcome of a `connect_nport2`
attempt (line 183), of the NPort 2 read (lines 188-191), of a
`connect_nport1` attempt inside `ensure_nport1_connected` (line 209), of
the NPort 1 write+drain (lines 218-222), of the NPort 1 reply read
(lines 227-230), and of the reply write+drain to NPort 2
(lines 236-237). -/
structure SecOracle where
  connect2Ok : Bool
  secRead : RdRes
  connect1Ok : Bool
  primWrite : WRes
  primRead : RdRes
  secReply : WRes
deriving DecidableEq, Repr

/-- Result of one secondary-loop iteration; `sleep` is the
`asyncio.sleep` duration taken before the next iteration (0 = none). -/
structure SecResult where
  outcome : Outcome
  state : ConnState
  trace : List BusEv
  replySent : Bool
  sleep : Nat
deriving DecidableEq, Repr

/-- Lines 186-245 of the loop body, entered once `nport2_reader` is
present (or a connect for it just succeeded):

* NPort 2 read `TimeoutError` → `except asyncio.TimeoutError: continue`
  (lines 247-249), nothing touched;
* empty NPort 2 read → close and clear both NPort 2 handles, sleep 1,
  continue (lines 193-204);
* other read exception → generic `except Exception` (lines 250-261):
  close and clear both NPort 2 handles, sleep 1, continue;
* data: `ensure_nport1_connected`; on failure sleep 1 and continue
  (lines 209-212); otherwise `async with self.bus_lock`: write+drain to
  NPort 1 (exception → clear NPort 1 handles, lines 241-245), read reply
  (timeout → logged only; exception → clear NPort 1 handles; empty →
  nothing), and forward a nonempty reply to NPort 2 only if
  `nport2_writer` is present — an exception in that forward is caught by
  the same line-241 handler and clears the NPort 1 handles. -/
def secBody (o : SecOracle) (s : ConnState) : SecResult :=
  match o.secRead with
  | RdRes.timeout => ⟨Outcome.continued, s, [], false, 0⟩
  | RdRes.data [] => ⟨Outcome.continued, clear_nport2 s, [], false, 1⟩
  | RdRes.exc => ⟨Outcome.continued, clear_nport2 s, [], false, 1⟩
  | RdRes.data (_ :: _) =>
    let e := ensure_nport1_connected o.connect1Ok s
    if e.success then
      match o.primWrite with
      | WRes.exc =>
          ⟨Outcome.continued, clear_nport1 e.state,
            [BusEv.ensure, BusEv.acquire, BusEv.primWrite, BusEv.release],
            false, 0⟩
      | WRes.ok =>
        match o.primRead with
        | RdRes.timeout =>
            ⟨Outcome.continued, e.state,
              [BusEv.ensure, BusEv.acquire, BusEv.primWrite, BusEv.primRead,
                BusEv.release], false, 0⟩
        | RdRes.exc =>
            ⟨Outcome.continued, clear_nport1 e.state,
              [BusEv.ensure, BusEv.acquire, BusEv.primWrite, BusEv.primRead,
                BusEv.release], false, 0⟩
        | RdRes.data [] =>
            ⟨Outcome.continued, e.state,
              [BusEv.ensure, BusEv.acquire, BusEv.primWrite, BusEv.primRead,
                BusEv.release], false, 0⟩
        | RdRes.data (_ :: _) =>
          if e.state.nport2_writer then
            match o.secReply with
            | WRes.ok =>
                ⟨Outcome.continued, e.state,
                  [BusEv.ensure, BusEv.acquire, BusEv.primWrite,
                    BusEv.primRead, BusEv.fwd, BusEv.release], true, 0⟩
            | WRes.exc =>
                ⟨Outcome.continued, clear_nport1 e.state,
                  [BusEv.ensure, BusEv.acquire, BusEv.primWrite,
                    BusEv.primRead, BusEv.fwd, BusEv.release], false, 0⟩
          else
            ⟨Outcome.continued, e.state,
              [BusEv.ensure, BusEv.acquire, BusEv.primWrite, BusEv.primRead,
                BusEv.release], false, 0⟩
    else ⟨Outcome.continued, e.state, [BusEv.ensure], false, 1⟩

/-- One iteration of `bridge_nport2_to_nport1`'s `while self.running` body
(lines 179-261).  If `nport2_reader` is absent, one `connect_nport2`
attempt is made first (lines 181-185): failure sleeps 5 and continues;
success falls through to the read.  No branch of the body leaves the
loop: `TimeoutError` continues, every other exception is absorbed by the
generic handler, so the loop runs until `self.running` is cleared. -/
def secIter (o : SecOracle) (s : ConnState) : SecResult :=
  if s.nport2_reader then secBody o s
  else
    let c := connect_nport2 o.connect2Ok s
    if c.1 then secBody o c.2
    else ⟨Outcome.continued, c.2, [], false, 5⟩

/-! ### Trace discipline of the two loop bodies -/

/-- Every client-session iteration, whatever the outcome of each network
operation, emits a lock-well-formed trace: acquisitions matched by
releases, `ensure` outside the critical section, exchange operations
inside it. -/
theorem sessIter_trace_wf (o : SessOracle) (s : ConnState) :
    lockWF false (sessIter o s).trace = true := by
  rcases o with ⟨cr, ck, pw, pr, rp⟩
  cases cr with
  | timeout => rfl
  | exc => rfl
  | data bs =>
    cases bs with
    | nil => rfl
    | cons b t =>
      cases h : (ensure_nport1_connected ck s).success with
      | false => simp [sessIter, h, lockWF]
      | true =>
        cases pw with
        | exc => simp [sessIter, h, lockWF]
        | ok =>
          cases pr with
          | timeout => simp [sessIter, h, lockWF]
          | exc => simp [sessIter, h, lockWF]
          | data rs =>
            cases rs with
            | nil => simp [sessIter, h, lockWF]
            | cons c cs => cases rp <;> simp [sessIter, h, lockWF]

/-- Same lock discipline for every secondary-loop iteration. -/
theorem secIter_trace_wf (o : SecOracle) (s : ConnState) :
    lockWF false (secIter o s).trace = true := by
  rcases o with ⟨c2, sr, c1, pw, pr, rp⟩
  have body : ∀ s' : ConnState,
      lockWF false (secBody ⟨c2, sr, c1, pw, pr, rp⟩ s').trace = true := by
    intro s'
    cases sr with
    | timeout => rfl
    | exc => rfl
    | data bs =>
      cases bs with
      | nil => rfl
      | cons b t =>
        cases h : (ensure_nport1_connected c1 s').success with
        | false => simp [secBody, h, lockWF]
        | true =>
          cases pw with
          | exc => simp [secBody, h, lockWF]
          | ok =>
            cases pr with
            | timeout => simp [secBody, h, lockWF]
            | exc => simp [secBody, h, lockWF]
            | data rs =>
              cases rs with
              | nil => simp [secBody, h, lockWF]
              | cons c cs =>
                cases hw : (ensure_nport1_connected c1 s').state.nport2_writer with
                | false => simp [secBody, h, hw, lockWF]
                | true => cases rp <;> simp [secBody, h, hw, lockWF]
  cases h2 : s.nport2_reader with
  | true => simp [secIter, h2, body]
  | false =>
    cases c2 with
    | true => simp [secIter, h2, connect_nport2, body]
    | false => simp [secIter, h2, connect_nport2, lockWF]

/-! ### Interleaved execution of tasks contending for the bus lock

Each task (one client session loop, or the secondary bridge loop) is, as
far as the bus is concerned, a sequence of the events its iterations emit.
The scheduler interleaves tasks at suspension points; `acquire` (the
`await` inside `async with self.bus_lock`) can only proceed when no task
holds the lock, exactly as `asyncio.Lock` behaves.  A task is "inside"
when it is between its `acquire` and the matching `release`, i.e. in the
write/read phase of an exchange. -/

structure TaskSt where
  inside : Bool
  prog : List BusEv
deriving DecidableEq, Repr

structure Sys where
  tasks : List TaskSt
  holder : Option Nat
deriving DecidableEq, Repr

/-- One scheduler step: a task performs its next event.  `acquire`
requires the lock to be free and takes it; `release` frees it; any other
event leaves the lock alone. -/
inductive Step : Sys → Sys → Prop
  | acquire {sys : Sys} {i : Nat} {r : List BusEv}
      (h : sys.tasks[i]? = some ⟨false, BusEv.acquire :: r⟩)
      (hfree : sys.holder = none) :
      Step sys ⟨sys.tasks.set i ⟨true, r⟩, some i⟩
  | release {sys : Sys} {i : Nat} {r : List BusEv}
      (h : sys.tasks[i]? = some ⟨true, BusEv.release :: r⟩) :
      Step sys ⟨sys.tasks.set i ⟨false, r⟩, none⟩
  | work {sys : Sys} {i : Nat} {b : Bool} {e : BusEv} {r : List BusEv}
      (h : sys.tasks[i]? = some ⟨b, e :: r⟩)
      (hna : e ≠ BusEv.acquire) (hnr : e ≠ BusEv.release) :
      Step sys ⟨sys.tasks.set i ⟨b, r⟩, sys.holder⟩

/-- Reachability by scheduler steps. -/
inductive Reach : Sys → Sys → Prop
  | refl (s : Sys) : Reach s s
  | tail {a b c : Sys} : Reach a b → Step b c → Reach a c

/-- System invariant: every task's remaining program is lock-well-formed
from its current phase, and a task is inside its critical section exactly
when it holds the lock. -/
def Inv (sys : Sys) : Prop :=
  (∀ (i : Nat) (t : TaskSt), sys.tasks[i]? = some t → lockWF t.inside t.prog = true) ∧
  (∀ (i : Nat) (t : TaskSt), sys.tasks[i]? = some t → (t.inside = true ↔ sys.holder = some i)) ∧
  (∀ (k : Nat), sys.holder = some k →
    ∃ t : TaskSt, sys.tasks[k]? = some t ∧ t.inside = true)

/-- A fresh system: every task at the start of its event sequence, lock
free. -/
def initSys (progs : List (List BusEv)) : Sys :=
  ⟨progs.map (fun p => ⟨false, p⟩), none⟩

theorem initSys_inv (progs : List (List BusEv))
    (hp : ∀ p ∈ progs, lockWF false p = true) : Inv (initSys progs) := by
  refine ⟨?_, ?_, ?_⟩
  · intro i t ht
    simp only [initSys, List.getElem?_map] at ht
    cases hq : progs[i]? with
    | none => rw [hq] at ht; simp at ht
    | some p =>
      rw [hq] at ht
      simp only [Option.map_some'] at ht
      cases ht
      exact hp p (List.getElem?_mem hq)
  · intro i t ht
    simp only [initSys, List.getElem?_map] at ht
    cases hq : progs[i]? with
    | none => rw [hq] at ht; simp at ht
    | some p =>
      rw [hq] at ht
      simp only [Option.map_some'] at ht
      cases ht
      simp [initSys]
  · intro k hk
    exact Option.noConfusion hk

theorem step_inv {a b : Sys} (hi : Inv a) (st : Step a b) : Inv b := by
  obtain ⟨h1, h2, h3⟩ := hi
  cases st with
  | @acquire i r h hfree =>
    have hlen : i < a.tasks.length := by
      rw [List.getElem?_eq_some] at h; exact h.1
    refine ⟨?_, ?_, ?_⟩
    · intro j t ht
      by_cases hij : i = j
      · subst hij
        rw [List.getElem?_set_eq_of_lt _ hlen] at ht
        cases ht
        have hw := h1 i _ h
        simpa [lockWF] using hw
      · rw [List.getElem?_set_ne hij] at ht
        exact h1 j t ht
    · intro j t ht
      by_cases hij : i = j
      · subst hij
        rw [List.getElem?_set_eq_of_lt _ hlen] at ht
        cases ht
        simp
      · rw [List.getElem?_set_ne hij] at ht
        have hold := h2 j t ht
        constructor
        · intro hin
          have hj := hold.mp hin
          rw [hfree] at hj
          cases hj
        · intro hh
          exact absurd (Option.some.inj hh) hij
    · intro k hk
      have hk2 : i = k := Option.some.inj hk
      subst hk2
      exact ⟨⟨true, r⟩, List.getElem?_set_eq_of_lt _ hlen, rfl⟩
  | @release i r h =>
    have hlen : i < a.tasks.length := by
      rw [List.getElem?_eq_some] at h; exact h.1
    have hold : a.holder = some i := (h2 i _ h).mp rfl
    refine ⟨?_, ?_, ?_⟩
    · intro j t ht
      by_cases hij : i = j
      · subst hij
        rw [List.getElem?_set_eq_of_lt _ hlen] at ht
        cases ht
        have hw := h1 i _ h
        simpa [lockWF] using hw
      · rw [List.getElem?_set_ne hij] at ht
        exact h1 j t ht
    · intro j t ht
      by_cases hij : i = j
      · subst hij
        rw [List.getElem?_set_eq_of_lt _ hlen] at ht
        cases ht
        simp
      · rw [List.getElem?_set_ne hij] at ht
        have hold2 := h2 j t ht
        constructor
        · intro hin
          have hj := hold2.mp hin
          rw [hold] at hj
          exact absurd (Option.some.inj hj) hij
        · intro hh
          cases hh
    · intro k hk
      exact Option.noConfusion hk
  | @work i bb e r h hna hnr =>
    have hlen : i < a.tasks.length := by
      rw [List.getElem?_eq_some] at h; exact h.1
    refine ⟨?_, ?_, ?_⟩
    · intro j t ht
      by_cases hij : i = j
      · subst hij
        rw [List.getElem?_set_eq_of_lt _ hlen] at ht
        cases ht
        have hw := h1 i _ h
        cases e with
        | acquire => exact absurd rfl hna
        | release => exact absurd rfl hnr
        | ensure => simp [lockWF] at hw; exact hw.2
        | primWrite => simp [lockWF] at hw; exact hw.2
        | primRead => simp [lockWF] at hw; exact hw.2
        | fwd => simp [lockWF] at hw; exact hw.2
      · rw [List.getElem?_set_ne hij] at ht
        exact h1 j t ht
    · intro j t ht
      by_cases hij : i = j
      · subst hij
        rw [List.getElem?_set_eq_of_lt _ hlen] at ht
        cases ht
        simpa using h2 i ⟨bb, e :: r⟩ h
      · rw [List.getElem?_set_ne hij] at ht
        exact h2 j t ht
    · intro k hk
      obtain ⟨t, htk, hin⟩ := h3 k hk
      by_cases hik : i = k
      · subst hik
        rw [h] at htk
        have heq : t = ⟨bb, e :: r⟩ := (Option.some.inj htk).symm
        subst heq
        exact ⟨⟨bb, r⟩, List.getElem?_set_eq_of_lt _ hlen, hin⟩
      · exact ⟨t, by rw [List.getElem?_set_ne hik]; exact htk, hin⟩

theorem reach_inv {a b : Sys} (hi : Inv a) (hr : Reach a b) : Inv b := by
  induction hr with
  | refl => exact hi
  | tail _ st ih => exact step_inv ih st

theorem inv_mutex {sys : Sys} (hi : Inv sys) {i j : Nat} {ti tj : TaskSt}
    (hti : sys.tasks[i]? = some ti) (htj : sys.tasks[j]? = some tj)
    (hii : ti.inside = true) (hjj : tj.inside = true) : i = j := by
  have ha := (hi.2.1 i ti hti).mp hii
  have hb := (hi.2.1 j tj htj).mp hjj
  rw [ha] at hb
  exact Option.some.inj hb

theorem inv_prim_inside {sys : Sys} (hi : Inv sys) {i : Nat} {t : TaskSt}
    (ht : sys.tasks[i]? = some t) {e : BusEv} {r : List BusEv}
    (hp : t.prog = e :: r) (he : e = BusEv.primWrite ∨ e = BusEv.primRead) :
    t.inside = true ∧ sys.holder = some i := by
  have hw := hi.1 i t ht
  rw [hp] at hw
  have hin : t.inside = true := by
    rcases he with rfl | rfl <;> simp [lockWF] at hw <;> exact hw.1
  exact ⟨hin, (hi.2.1 i t ht).mp hin⟩

/-- Mutual exclusion, stated over a system state: (a) no two distinct
tasks are inside their critical sections at once — no two exchanges'
write/read phases overlap; (b) any task whose next event is a primary
write or read is inside its critical section and is the current holder of
the bus lock. -/
def MutexProp (sys : Sys) : Prop :=
  (∀ (i j : Nat) (ti tj : TaskSt),
      sys.tasks[i]? = some ti → sys.tasks[j]? = some tj →
      ti.inside = true → tj.inside = true → i = j) ∧
  (∀ (i : Nat) (t : TaskSt) (e : BusEv) (r : List BusEv),
      sys.tasks[i]? = some t → t.prog = e :: r →
      (e = BusEv.primWrite ∨ e = BusEv.primRead) →
      t.inside = true ∧ sys.holder = some i)

/-! ### The claims -/

/-- **C1**: for all concurrent exchange attempts against the primary
endpoint — any number of client session loops plus the secondary bridge
loop, interleaved by the scheduler from any initial mix of iteration
programs — no two exchanges' write/read phases overlap in time: at most
one task is ever inside the `bus_lock` critical section, a task about to
perform a primary write/read is that unique lock holder, and both loops'
iteration bodies do perform their writes/reads inside acquire/release
pairs (trace well-formedness, for every I/O outcome). -/
theorem C1_bus_mutual_exclusion
    (progs : List (List BusEv))
    (hp : ∀ p ∈ progs, lockWF false p = true)
    (sys : Sys) (hr : Reach (initSys progs) sys) :
    MutexProp sys ∧
    (∀ (o : SessOracle) (s : ConnState), lockWF false (sessIter o s).trace = true) ∧
    (∀ (o : SecOracle) (s : ConnState), lockWF false (secIter o s).trace = true) := by
  have hi := reach_inv (initSys_inv progs hp) hr
  exact ⟨⟨fun i j ti tj hti htj hii hjj => inv_mutex hi hti htj hii hjj,
          fun i t e r ht hpr he => inv_prim_inside hi ht hpr he⟩,
         sessIter_trace_wf, secIter_trace_wf⟩

/-- A concrete shared state with every handle live. -/
def allConnected : ConnState := ⟨true, true, true, true⟩

/-- Two concrete task programs: the bus-event trace of one successful
client-session iteration and of one successful secondary-loop
iteration. -/
def demoProgs : List (List BusEv) :=
  [(sessIter ⟨RdRes.data [1], true, WRes.ok, RdRes.data [2], WRes.ok⟩
      allConnected).trace,
   (secIter ⟨true, RdRes.data [3], true, WRes.ok, RdRes.data [4], WRes.ok⟩
      allConnected).trace]

theorem C1_bus_mutual_exclusion_witness :
    MutexProp (initSys demoProgs) ∧
    (∀ (o : SessOracle) (s : ConnState), lockWF false (sessIter o s).trace = true) ∧
    (∀ (o : SecOracle) (s : ConnState), lockWF false (secIter o s).trace = true) :=
  C1_bus_mutual_exclusion demoProgs (by decide) (initSys demoProgs)
    (Reach.refl _)

/-- **C2**: every acquisition of `bus_lock` is released on every exit path
of its critical section.  Conjuncts: (a)/(b) for every I/O outcome —
normal completion, timeout, or an exception anywhere in the exchange —
each loop iteration's trace is lock-well-formed, so each `acquire` it
performs has a matching `release` and the iteration ends with the lock
free; (c) consequently, in any reachable interleaving in which every
other task has run to completion, a task whose next event is `acquire`
can take the step and obtain the lock. -/
theorem C2_lock_released_on_every_path :
    (∀ (o : SessOracle) (s : ConnState), lockWF false (sessIter o s).trace = true) ∧
    (∀ (o : SecOracle) (s : ConnState), lockWF false (secIter o s).trace = true) ∧
    (∀ (progs : List (List BusEv)), (∀ p ∈ progs, lockWF false p = true) →
      ∀ (sys : Sys), Reach (initSys progs) sys →
      ∀ (i : Nat) (ti : TaskSt) (r : List BusEv),
        sys.tasks[i]? = some ti → ti.prog = BusEv.acquire :: r →
        (∀ (j : Nat) (tj : TaskSt), sys.tasks[j]? = some tj → j ≠ i → tj.prog = []) →
        Step sys ⟨sys.tasks.set i ⟨true, r⟩, some i⟩) := by
  refine ⟨sessIter_trace_wf, secIter_trace_wf, ?_⟩
  intro progs hp sys hr i ti r hti hprog hrest
  have hi := reach_inv (initSys_inv progs hp) hr
  have hinside : ti.inside = false := by
    have hw := hi.1 i ti hti
    rw [hprog] at hw
    simp [lockWF] at hw
    exact hw.1
  have hfree : sys.holder = none := by
    cases hh : sys.holder with
    | none => rfl
    | some k =>
      obtain ⟨tk, htk, hink⟩ := hi.2.2 k hh
      by_cases hki : k = i
      · subst hki
        have heq : tk = ti := Option.some.inj (htk.symm.trans hti)
        rw [heq, hinside] at hink
        cases hink
      · have hdone := hrest k tk htk hki
        have hw := hi.1 k tk htk
        rw [hdone] at hw
        simp [lockWF] at hw
        rw [hw] at hink
        cases hink
  have hti2 : sys.tasks[i]? = some ⟨false, BusEv.acquire :: r⟩ := by
    have : ti = ⟨false, BusEv.acquire :: r⟩ := by
      cases ti
      simp only [TaskSt.mk.injEq]
      exact ⟨hinside, hprog⟩
    rw [this] at hti
    exact hti
  exact Step.acquire hti2 hfree

theorem C2_lock_released_on_every_path_witness :
    Step (initSys [[BusEv.acquire, BusEv.release]])
      ⟨(initSys [[BusEv.acquire, BusEv.release]]).tasks.set 0
          ⟨true, [BusEv.release]⟩, some 0⟩ :=
  C2_lock_released_on_every_path.2.2 [[BusEv.acquire, BusEv.release]]
    (by decide) (initSys [[BusEv.acquire, BusEv.release]]) (Reach.refl _)
    0 ⟨false, [BusEv.acquire, BusEv.release]⟩ [BusEv.release]
    (by decide) rfl
    (by
      intro j tj hj hne
      cases j with
      | zero => exact absurd rfl hne
      | succ n => simp [initSys] at hj)

/-- `ensure_nport1_connected` never touches the NPort 2 handles. -/
theorem ensure_nport1_connected_nport2 (ok : Bool) (s : ConnState) :
    (ensure_nport1_connected ok s).state.nport2_reader = s.nport2_reader ∧
    (ensure_nport1_connected ok s).state.nport2_writer = s.nport2_writer := by
  cases h : (s.nport1_writer && s.nport1_reader) <;>
    cases ok <;> simp [ensure_nport1_connected, connect_nport1, h]

/-- **C3** (counterexample): the claim says every client-socket failure is
confined to its session — the session ends and the shared primary handles
are untouched.  But when the failure is an exception from
`client_writer.write`/`drain` while forwarding the reply (lines 153-154),
it is caught by the `except Exception` handler of the *exchange*
(line 158), which clears both NPort 1 handles and keeps the session
loop running.  Oracle: client sends `[1]`, the exchange succeeds,
and the write of the reply back to the client raises. -/
theorem C3_session_confinement_counterexample :
    (sessIter ⟨RdRes.data [1], true, WRes.ok, RdRes.data [2], WRes.exc⟩
        allConnected).outcome = Outcome.continued ∧
    (sessIter ⟨RdRes.data [1], true, WRes.ok, RdRes.data [2], WRes.exc⟩
        allConnected).state.nport1_reader = false ∧
    (sessIter ⟨RdRes.data [1], true, WRes.ok, RdRes.data [2], WRes.exc⟩
        allConnected).state.nport1_writer = false := by decide

/-- **C3** (amended): a client-socket failure or timeout *while reading
the request* (and an empty read) is confined to the session: the session
ends and the shared state is completely unchanged.  A client-socket
failure *while writing the reply*, however, is handled by the primary-
exchange error path: it clears both NPort 1 handles, delivers no
response, and leaves the session open. -/
theorem C3_session_confinement_amended :
    (∀ (o : SessOracle) (s : ConnState),
      (o.clientRead = RdRes.timeout ∨ o.clientRead = RdRes.exc ∨
        o.clientRead = RdRes.data []) →
      (sessIter o s).outcome = Outcome.ended ∧ (sessIter o s).state = s) ∧
    (∀ (o : SessOracle) (s : ConnState) (b : Nat) (bs : List Nat)
        (c : Nat) (cs : List Nat),
      o.clientRead = RdRes.data (b :: bs) →
      (ensure_nport1_connected o.connectOk s).success = true →
      o.primWrite = WRes.ok → o.primRead = RdRes.data (c :: cs) →
      o.clientReply = WRes.exc →
      (sessIter o s).outcome = Outcome.continued ∧
      (sessIter o s).state =
        clear_nport1 (ensure_nport1_connected o.connectOk s).state ∧
      (sessIter o s).responseSent = false) := by
  constructor
  · intro o s h
    rcases o with ⟨cr, ck, pw, pr, rp⟩
    simp only at h
    rcases h with h | h | h <;> subst h <;> exact ⟨rfl, rfl⟩
  · intro o s b bs c cs h1 h2 h3 h4 h5
    rcases o with ⟨cr, ck, pw, pr, rp⟩
    simp only at h1 h2 h3 h4 h5
    subst h1; subst h3; subst h4; subst h5
    simp [sessIter, h2]

theorem C3_session_confinement_witness :
    ((sessIter ⟨RdRes.timeout, true, WRes.ok, RdRes.timeout, WRes.ok⟩
        allConnected).outcome = Outcome.ended ∧
     (sessIter ⟨RdRes.timeout, true, WRes.ok, RdRes.timeout, WRes.ok⟩
        allConnected).state = allConnected) ∧
    ((sessIter ⟨RdRes.data [1], true, WRes.ok, RdRes.data [2], WRes.exc⟩
        allConnected).outcome = Outcome.continued ∧
     (sessIter ⟨RdRes.data [1], true, WRes.ok, RdRes.data [2], WRes.exc⟩
        allConnected).state =
        clear_nport1 (ensure_nport1_connected true allConnected).state ∧
     (sessIter ⟨RdRes.data [1], true, WRes.ok, RdRes.data [2], WRes.exc⟩
        allConnected).responseSent = false) :=
  ⟨C3_session_confinement_amended.1 _ _ (Or.inl rfl),
   C3_session_confinement_amended.2 _ _ 1 [] 2 [] rfl (by decide) rfl rfl rfl⟩

/-- **C4** (counterexample): the claim says *every* secondary connect,
read, or write failure invalidates the secondary handle and pauses the
loop.  But a failure while *writing the reply to NPort 2* (lines 236-237)
is caught by the exchange's `except Exception` handler (line 241), which
clears the *NPort 1* handles, leaves both NPort 2 handles present, and
continues with no pause. -/
theorem C4_secondary_resilience_counterexample :
    (secIter ⟨true, RdRes.data [1], true, WRes.ok, RdRes.data [2], WRes.exc⟩
        allConnected).state.nport2_reader = true ∧
    (secIter ⟨true, RdRes.data [1], true, WRes.ok, RdRes.data [2], WRes.exc⟩
        allConnected).state.nport2_writer = true ∧
    (secIter ⟨true, RdRes.data [1], true, WRes.ok, RdRes.data [2], WRes.exc⟩
        allConnected).state.nport1_reader = false ∧
    (secIter ⟨true, RdRes.data [1], true, WRes.ok, RdRes.data [2], WRes.exc⟩
        allConnected).sleep = 0 ∧
    (secIter ⟨true, RdRes.data [1], true, WRes.ok, RdRes.data [2], WRes.exc⟩
        allConnected).outcome = Outcome.continued := by decide

/-- **C4** (amended): no failure in the secondary bridge loop is fatal —
every iteration continues the loop.  A failed secondary *connect* leaves
the state unchanged (the handles stay absent) and pauses 5 seconds; an
empty secondary *read* (peer closed) or a read *exception* clears both
NPort 2 handles and pauses 1 second.  A failure while *writing the reply*
to NPort 2, however, clears the NPort 1 handles instead, leaves the
secondary handles present, and does not pause. -/
theorem C4_secondary_resilience_amended :
    (∀ (o : SecOracle) (s : ConnState),
      (secIter o s).outcome = Outcome.continued) ∧
    (∀ (o : SecOracle) (s : ConnState), s.nport2_reader = false →
      o.connect2Ok = false →
      secIter o s = ⟨Outcome.continued, s, [], false, 5⟩) ∧
    (∀ (o : SecOracle) (s : ConnState), s.nport2_reader = true →
      (o.secRead = RdRes.data [] ∨ o.secRead = RdRes.exc) →
      secIter o s = ⟨Outcome.continued, clear_nport2 s, [], false, 1⟩) ∧
    (∀ (o : SecOracle) (s : ConnState) (b : Nat) (bs : List Nat)
        (c : Nat) (cs : List Nat),
      s.nport2_reader = true → s.nport2_writer = true →
      o.secRead = RdRes.data (b :: bs) →
      (ensure_nport1_connected o.connect1Ok s).success = true →
      o.primWrite = WRes.ok → o.primRead = RdRes.data (c :: cs) →
      o.secReply = WRes.exc →
      (secIter o s).state.nport1_reader = false ∧
      (secIter o s).state.nport1_writer = false ∧
      (secIter o s).state.nport2_reader = true ∧
      (secIter o s).state.nport2_writer = true ∧
      (secIter o s).sleep = 0 ∧
      (secIter o s).outcome = Outcome.continued) := by
  refine ⟨?_, ?_, ?_, ?_⟩
  · intro o s
    rcases o with ⟨c2, sr, c1, pw, pr, rp⟩
    have body : ∀ s' : ConnState,
        (secBody ⟨c2, sr, c1, pw, pr, rp⟩ s').outcome = Outcome.continued := by
      intro s'
      cases sr with
      | timeout => rfl
      | exc => rfl
      | data bs =>
        cases bs with
        | nil => rfl
        | cons b t =>
          cases h : (ensure_nport1_connected c1 s').success with
          | false => simp [secBody, h]
          | true =>
            cases pw with
            | exc => simp [secBody, h]
            | ok =>
              cases pr with
              | timeout => simp [secBody, h]
              | exc => simp [secBody, h]
              | data rs =>
                cases rs with
                | nil => simp [secBody, h]
                | cons c cs =>
                  cases hw : (ensure_nport1_connected c1 s').state.nport2_writer with
                  | false => simp [secBody, h, hw]
                  | true => cases rp <;> simp [secBody, h, hw]
    cases h2 : s.nport2_reader with
    | true => simp [secIter, h2, body]
    | false =>
      cases c2 with
      | true => simp [secIter, h2, connect_nport2, body]
      | false => simp [secIter, h2, connect_nport2]
  · intro o s h1 h2
    rcases o with ⟨c2, sr, c1, pw, pr, rp⟩
    simp only at h2
    subst h2
    simp [secIter, h1, connect_nport2]
  · intro o s h1 h2
    rcases o with ⟨c2, sr, c1, pw, pr, rp⟩
    simp only at h2
    rcases h2 with h2 | h2 <;> subst h2 <;> simp [secIter, h1, secBody]
  · intro o s b bs c cs hrd hwrt h1 h2 h3 h4 h5
    rcases o with ⟨c2, sr, c1, pw, pr, rp⟩
    simp only at h1 h2 h3 h4 h5
    subst h1; subst h3; subst h4; subst h5
    have hw2 : (ensure_nport1_connected c1 s).state.nport2_writer = true := by
      rw [(ensure_nport1_connected_nport2 c1 s).2]; exact hwrt
    have hr2 : (ensure_nport1_connected c1 s).state.nport2_reader = true := by
      rw [(ensure_nport1_connected_nport2 c1 s).1]; exact hrd
    simp [secIter, secBody, hrd, h2, hw2, hr2, clear_nport1]

theorem C4_secondary_resilience_witness :
    ((secIter ⟨false, RdRes.timeout, true, WRes.ok, RdRes.timeout, WRes.ok⟩
        ⟨true, true, false, false⟩).outcome = Outcome.continued) ∧
    (secIter ⟨false, RdRes.timeout, true, WRes.ok, RdRes.timeout, WRes.ok⟩
        ⟨true, true, false, false⟩ =
      ⟨Outcome.continued, ⟨true, true, false, false⟩, [], false, 5⟩) ∧
    (secIter ⟨true, RdRes.data [], true, WRes.ok, RdRes.timeout, WRes.ok⟩
        allConnected =
      ⟨Outcome.continued, clear_nport2 allConnected, [], false, 1⟩) ∧
    ((secIter ⟨true, RdRes.data [1], true, WRes.ok, RdRes.data [2], WRes.exc⟩
        allConnected).state.nport1_reader = false ∧
     (secIter ⟨true, RdRes.data [1], true, WRes.ok, RdRes.data [2], WRes.exc⟩
        allConnected).state.nport1_writer = false ∧
     (secIter ⟨true, RdRes.data [1], true, WRes.ok, RdRes.data [2], WRes.exc⟩
        allConnected).state.nport2_reader = true ∧
     (secIter ⟨true, RdRes.data [1], true, WRes.ok, RdRes.data [2], WRes.exc⟩
        allConnected).state.nport2_writer = true ∧
     (secIter ⟨true, RdRes.data [1], true, WRes.ok, RdRes.data [2], WRes.exc⟩
        allConnected).sleep = 0 ∧
     (secIter ⟨true, RdRes.data [1], true, WRes.ok, RdRes.data [2], WRes.exc⟩
        allConnected).outcome = Outcome.continued) :=
  ⟨C4_secondary_resilience_amended.1 _ _,
   C4_secondary_resilience_amended.2.1 _ _ rfl rfl,
   C4_secondary_resilience_amended.2.2.1 _ _ rfl (Or.inl rfl),
   C4_secondary_resilience_amended.2.2.2 _ _ 1 [] 2 [] rfl rfl rfl
     (by decide) rfl rfl rfl⟩

/-- **C5**: a primary write failure, or a primary read failure other than
a timeout, mid-exchange — in either forwarding loop — clears both NPort 1
handles, delivers no response bytes for that chunk, releases the bus lock
normally (the iteration trace stays lock-well-formed and ends with the
lock free), and the enclosing loop continues: the client session stays
open, the secondary loop keeps running. -/
theorem C5_primary_failure_midexchange :
    (∀ (o : SessOracle) (s : ConnState) (b : Nat) (bs : List Nat),
      o.clientRead = RdRes.data (b :: bs) →
      (ensure_nport1_connected o.connectOk s).success = true →
      (o.primWrite = WRes.exc ∨
        (o.primWrite = WRes.ok ∧ o.primRead = RdRes.exc)) →
      (sessIter o s).state.nport1_reader = false ∧
      (sessIter o s).state.nport1_writer = false ∧
      (sessIter o s).responseSent = false ∧
      (sessIter o s).outcome = Outcome.continued ∧
      lockWF false (sessIter o s).trace = true) ∧
    (∀ (o : SecOracle) (s : ConnState) (b : Nat) (bs : List Nat),
      s.nport2_reader = true →
      o.secRead = RdRes.data (b :: bs) →
      (ensure_nport1_connected o.connect1Ok s).success = true →
      (o.primWrite = WRes.exc ∨
        (o.primWrite = WRes.ok ∧ o.primRead = RdRes.exc)) →
      (secIter o s).state.nport1_reader = false ∧
      (secIter o s).state.nport1_writer = false ∧
      (secIter o s).replySent = false ∧
      (secIter o s).outcome = Outcome.continued ∧
      lockWF false (secIter o s).trace = true) := by
  constructor
  · intro o s b bs h1 h2 h3
    refine ?_
    have htr := sessIter_trace_wf o s
    rcases o with ⟨cr, ck, pw, pr, rp⟩
    simp only at h1 h2 h3
    subst h1
    rcases h3 with h3 | ⟨h3, h4⟩
    · subst h3
      simp [sessIter, h2, clear_nport1] at htr ⊢
      exact htr
    · subst h3; subst h4
      simp [sessIter, h2, clear_nport1] at htr ⊢
      exact htr
  · intro o s b bs h0 h1 h2 h3
    have htr := secIter_trace_wf o s
    rcases o with ⟨c2, sr, c1, pw, pr, rp⟩
    simp only at h1 h2 h3
    subst h1
    rcases h3 with h3 | ⟨h3, h4⟩
    · subst h3
      simp [secIter, secBody, h0, h2, clear_nport1] at htr ⊢
      exact htr
    · subst h3; subst h4
      simp [secIter, secBody, h0, h2, clear_nport1] at htr ⊢
      exact htr

theorem C5_primary_failure_midexchange_witness :
    ((sessIter ⟨RdRes.data [1], true, WRes.exc, RdRes.timeout, WRes.ok⟩
        allConnected).state.nport1_reader = false ∧
     (sessIter ⟨RdRes.data [1], true, WRes.exc, RdRes.timeout, WRes.ok⟩
        allConnected).state.nport1_writer = false ∧
     (sessIter ⟨RdRes.data [1], true, WRes.exc, RdRes.timeout, WRes.ok⟩
        allConnected).responseSent = false ∧
     (sessIter ⟨RdRes.data [1], true, WRes.exc, RdRes.timeout, WRes.ok⟩
        allConnected).outcome = Outcome.continued ∧
     lockWF false (sessIter ⟨RdRes.data [1], true, WRes.exc, RdRes.timeout,
        WRes.ok⟩ allConnected).trace = true) ∧
    ((secIter ⟨true, RdRes.data [1], true, WRes.ok, RdRes.exc, WRes.ok⟩
        allConnected).state.nport1_reader = false ∧
     (secIter ⟨true, RdRes.data [1], true, WRes.ok, RdRes.exc, WRes.ok⟩
        allConnected).state.nport1_writer = false ∧
     (secIter ⟨true, RdRes.data [1], true, WRes.ok, RdRes.exc, WRes.ok⟩
        allConnected).replySent = false ∧
     (secIter ⟨true, RdRes.data [1], true, WRes.ok, RdRes.exc, WRes.ok⟩
        allConnected).outcome = Outcome.continued ∧
     lockWF false (secIter ⟨true, RdRes.data [1], true, WRes.ok, RdRes.exc,
        WRes.ok⟩ allConnected).trace = true) :=
  ⟨C5_primary_failure_midexchange.1 _ _ 1 [] rfl (by decide) (Or.inl rfl),
   C5_primary_failure_midexchange.2 _ _ 1 [] rfl rfl (by decide)
     (Or.inr ⟨rfl, rfl⟩)⟩

/-- `connect_nport2` never touches the NPort 1 handles, so
`ensure_nport1_connected`'s verdict is the same before and after it. -/
theorem ensure_success_after_connect2 (ok1 ok2 : Bool) (s : ConnState) :
    (ensure_nport1_connected ok1 (connect_nport2 ok2 s).2).success =
      (ensure_nport1_connected ok1 s).success := by
  cases ok2 <;> cases h : (s.nport1_writer && s.nport1_reader) <;>
    cases ok1 <;>
    simp [ensure_nport1_connected, connect_nport1, connect_nport2, h]

/-- **C6**: the bus lock is never held while a primary
connect/`ensure_nport1_connected` attempt is in progress.  In both
loops: (a) the iteration trace is lock-well-formed — by definition of
`lockWF` the `ensure` event happens only while the lock is free and the
events between `acquire` and its `release` are only the write/read
exchange (and the reply forward); (b) if the trace ever acquires the
lock, `ensure_nport1_connected` already returned success, and the
acquisition comes directly after that `ensure`. -/
theorem C6_lock_only_after_ensure :
    (∀ (o : SessOracle) (s : ConnState),
      lockWF false (sessIter o s).trace = true ∧
      ((sessIter o s).trace.contains BusEv.acquire = true →
        (ensure_nport1_connected o.connectOk s).success = true ∧
        (sessIter o s).trace.take 2 = [BusEv.ensure, BusEv.acquire])) ∧
    (∀ (o : SecOracle) (s : ConnState),
      lockWF false (secIter o s).trace = true ∧
      ((secIter o s).trace.contains BusEv.acquire = true →
        (ensure_nport1_connected o.connect1Ok s).success = true ∧
        (secIter o s).trace.take 2 = [BusEv.ensure, BusEv.acquire])) := by
  constructor
  · intro o s
    refine ⟨sessIter_trace_wf o s, ?_⟩
    rcases o with ⟨cr, ck, pw, pr, rp⟩
    cases cr with
    | timeout => intro h; simp [sessIter] at h
    | exc => intro h; simp [sessIter] at h
    | data bs =>
      cases bs with
      | nil => intro h; simp [sessIter] at h
      | cons b t =>
        cases h : (ensure_nport1_connected ck s).success with
        | false => intro hcon; simp [sessIter, h] at hcon
        | true =>
          intro _
          cases pw with
          | exc => simp [sessIter, h]
          | ok =>
            cases pr with
            | timeout => simp [sessIter, h]
            | exc => simp [sessIter, h]
            | data rs =>
              cases rs with
              | nil => simp [sessIter, h]
              | cons c cs => cases rp <;> simp [sessIter, h]
  · intro o s
    refine ⟨secIter_trace_wf o s, ?_⟩
    rcases o with ⟨c2, sr, c1, pw, pr, rp⟩
    have body : ∀ s' : ConnState,
        (ensure_nport1_connected c1 s').success =
          (ensure_nport1_connected c1 s).success →
        (secBody ⟨c2, sr, c1, pw, pr, rp⟩ s').trace.contains BusEv.acquire
            = true →
        (ensure_nport1_connected c1 s).success = true ∧
        (secBody ⟨c2, sr, c1, pw, pr, rp⟩ s').trace.take 2 =
          [BusEv.ensure, BusEv.acquire] := by
      intro s' hsame
      cases sr with
      | timeout => intro h; simp [secBody] at h
      | exc => intro h; simp [secBody] at h
      | data bs =>
        cases bs with
        | nil => intro h; simp [secBody] at h
        | cons b t =>
          cases h : (ensure_nport1_connected c1 s').success with
          | false => intro hcon; simp [secBody, h] at hcon
          | true =>
            intro _
            rw [h] at hsame
            refine ⟨hsame.symm, ?_⟩
            cases pw with
            | exc => simp [secBody, h]
            | ok =>
              cases pr with
              | timeout => simp [secBody, h]
              | exc => simp [secBody, h]
              | data rs =>
                cases rs with
                | nil => simp [secBody, h]
                | cons c cs =>
                  cases hw : (ensure_nport1_connected c1 s').state.nport2_writer
                  · simp [secBody, h, hw]
                  · cases rp <;> simp [secBody, h, hw]
    cases h2 : s.nport2_reader with
    | true =>
      intro hcon
      have := body s rfl
      simp only [secIter, h2, if_true] at hcon ⊢
      exact this hcon
    | false =>
      cases c2 with
      | true =>
        intro hcon
        have := body (connect_nport2 true s).2
          (ensure_success_after_connect2 c1 true s)
        simp only [secIter, h2, connect_nport2, if_true, if_false,
          Bool.false_eq_true] at hcon ⊢
        exact this hcon
      | false =>
        intro hcon
        simp [secIter, h2, connect_nport2] at hcon

theorem C6_lock_only_after_ensure_witness :
    (ensure_nport1_connected true allConnected).success = true ∧
    (sessIter ⟨RdRes.data [1], true, WRes.ok, RdRes.data [2], WRes.ok⟩
        allConnected).trace.take 2 = [BusEv.ensure, BusEv.acquire] :=
  (C6_lock_only_after_ensure.1
      ⟨RdRes.data [1], true, WRes.ok, RdRes.data [2], WRes.ok⟩
      allConnected).2 (by decide)

/-- **C7**: `ensure_nport1_connected` with both primary handles present
performs no connect attempt and returns `True` with the state unchanged;
with both handles absent it performs exactly one `connect_nport1`
attempt, returns that attempt's verdict, and the handles become present
exactly when the attempt succeeded. -/
theorem C7_ensure_idempotence (ok : Bool) (s : ConnState) :
    (s.nport1_reader = true → s.nport1_writer = true →
      ensure_nport1_connected ok s = ⟨true, s, 0⟩) ∧
    (s.nport1_reader = false → s.nport1_writer = false →
      (ensure_nport1_connected ok s).attempts = 1 ∧
      (ensure_nport1_connected ok s).success = ok ∧
      (ensure_nport1_connected ok s).state =
        (if ok then { s with nport1_reader := true, nport1_writer := true }
         else s)) := by
  constructor
  · intro h1 h2
    simp [ensure_nport1_connected, h1, h2]
  · intro h1 h2
    cases ok <;> simp [ensure_nport1_connected, connect_nport1, h1, h2]

theorem C7_ensure_idempotence_witness :
    (ensure_nport1_connected false allConnected = ⟨true, allConnected, 0⟩) ∧
    ((ensure_nport1_connected true ⟨false, false, true, true⟩).attempts = 1 ∧
     (ensure_nport1_connected true ⟨false, false, true, true⟩).success = true ∧
     (ensure_nport1_connected true ⟨false, false, true, true⟩).state =
        ⟨true, true, true, true⟩) :=
  ⟨(C7_ensure_idempotence false allConnected).1 rfl rfl,
   (C7_ensure_idempotence true ⟨false, false, true, true⟩).2 rfl rfl⟩

/-- **C8**: if any of the four numeric settings has a non-numeric value
(its string does not parse as a Python `int`), `load_config` ends in
`sys.exit(1)` — a non-zero process exit — and no configuration object is
returned. -/
theorem C8_invalid_config_exits (env : List (String × String))
    (h : pyInt (getenv env "NPORT1_PORT" "4001") = none ∨
         pyInt (getenv env "NPORT2_PORT" "4002") = none ∨
         pyInt (getenv env "LISTEN_PORT" "5020") = none ∨
         pyInt (getenv env "MODBUS_TIMEOUT" "3") = none) :
    load_config env = Except.error 1 ∧
    (∀ c : Config, load_config env ≠ Except.ok c) ∧ (1 : Nat) ≠ 0 := by
  have herr : load_config env = Except.error 1 := by
    unfold load_config intEnv
    rcases h with h | h | h | h <;> rw [h] <;>
      cases pyInt (getenv env "NPORT1_PORT" "4001") <;>
      cases pyInt (getenv env "NPORT2_PORT" "4002") <;>
      cases pyInt (getenv env "LISTEN_PORT" "5020") <;>
      cases pyInt (getenv env "MODBUS_TIMEOUT" "3") <;> rfl
  refine ⟨herr, ?_, by decide⟩
  intro c hc
  rw [herr] at hc
  cases hc

theorem C8_invalid_config_exits_witness :
    load_config [("LISTEN_PORT", "abc")] = Except.error 1 ∧
    (∀ c : Config, load_config [("LISTEN_PORT", "abc")] ≠ Except.ok c) ∧
    (1 : Nat) ≠ 0 :=
  C8_invalid_config_exits [("LISTEN_PORT", "abc")]
    (Or.inr (Or.inr (Or.inl (by decide))))

/-- **C9**: with an empty environment the loaded configuration is exactly
the documented defaults: listen on `0.0.0.0:5020`, 3-second timeout, and
the fallback primary (`192.168.1.100:4001`) and secondary
(`192.168.1.101:4002`) addresses. -/
theorem C9_config_defaults :
    load_config [] = Except.ok
      { nport1_host := "192.168.1.100", nport1_port := 4001,
        nport2_host := "192.168.1.101", nport2_port := 4002,
        listen_host := "0.0.0.0", listen_port := 5020, timeout := 3 } := by
  rfl

/-- The implicit pairing invariant: each endpoint's reader and writer
handle are both present or both absent. -/
def coupled (s : ConnState) : Prop :=
  s.nport1_reader = s.nport1_writer ∧ s.nport2_reader = s.nport2_writer

theorem coupled_clear1 {s : ConnState} (h : coupled s) :
    coupled (clear_nport1 s) := ⟨rfl, h.2⟩

theorem coupled_clear2 {s : ConnState} (h : coupled s) :
    coupled (clear_nport2 s) := ⟨h.1, rfl⟩

theorem coupled_connect2 {s : ConnState} (ok : Bool) (h : coupled s) :
    coupled (connect_nport2 ok s).2 := by
  cases ok <;> simp [connect_nport2, coupled] <;>
    first
      | exact h.1
      | exact h

theorem coupled_ensure {s : ConnState} (ok : Bool) (h : coupled s) :
    coupled (ensure_nport1_connected ok s).state := by
  cases hc : (s.nport1_writer && s.nport1_reader) <;> cases ok <;>
    simp [ensure_nport1_connected, connect_nport1, hc, coupled] <;>
    first
      | exact h.2
      | exact h

/-- **C10**: the reader and writer handles of each endpoint move
together.  A successful connect assigns both of that endpoint's handles,
a failed connect changes nothing, and every step of either loop body —
over every I/O outcome — preserves the both-present-or-both-absent
pairing of each endpoint's handles (every invalidation path clears the
pair together). -/
theorem C10_handles_paired :
    (∀ (s : ConnState),
      (connect_nport1 true s).2.nport1_reader = true ∧
      (connect_nport1 true s).2.nport1_writer = true ∧
      connect_nport1 false s = (false, s) ∧
      (connect_nport2 true s).2.nport2_reader = true ∧
      (connect_nport2 true s).2.nport2_writer = true ∧
      connect_nport2 false s = (false, s)) ∧
    (∀ (ok : Bool) (s : ConnState), coupled s →
      coupled (connect_nport1 ok s).2 ∧ coupled (connect_nport2 ok s).2 ∧
      coupled (ensure_nport1_connected ok s).state) ∧
    (∀ (o : SessOracle) (s : ConnState), coupled s →
      coupled (sessIter o s).state) ∧
    (∀ (o : SecOracle) (s : ConnState), coupled s →
      coupled (secIter o s).state) := by
  refine ⟨?_, ?_, ?_, ?_⟩
  · intro s
    simp [connect_nport1, connect_nport2]
  · intro ok s h
    refine ⟨?_, coupled_connect2 ok h, coupled_ensure ok h⟩
    cases ok <;> simp [connect_nport1, coupled] <;>
      first
        | exact h.2
        | exact h
  · intro o s hc
    rcases o with ⟨cr, ck, pw, pr, rp⟩
    have he := coupled_ensure ck hc
    cases cr with
    | timeout => exact hc
    | exc => exact hc
    | data bs =>
      cases bs with
      | nil => exact hc
      | cons b t =>
        cases h : (ensure_nport1_connected ck s).success with
        | false => simpa [sessIter, h] using he
        | true =>
          cases pw with
          | exc => simpa [sessIter, h] using coupled_clear1 he
          | ok =>
            cases pr with
            | timeout => simpa [sessIter, h] using he
            | exc => simpa [sessIter, h] using coupled_clear1 he
            | data rs =>
              cases rs with
              | nil => simpa [sessIter, h] using he
              | cons c cs =>
                cases rp with
                | ok => simpa [sessIter, h] using he
                | exc => simpa [sessIter, h] using coupled_clear1 he
  · intro o s hc
    rcases o with ⟨c2, sr, c1, pw, pr, rp⟩
    have body : ∀ s' : ConnState, coupled s' →
        coupled (secBody ⟨c2, sr, c1, pw, pr, rp⟩ s').state := by
      intro s' hc'
      have he := coupled_ensure c1 hc'
      cases sr with
      | timeout => exact hc'
      | exc => exact coupled_clear2 hc'
      | data bs =>
        cases bs with
        | nil => exact coupled_clear2 hc'
        | cons b t =>
          cases h : (ensure_nport1_connected c1 s').success with
          | false => simpa [secBody, h] using he
          | true =>
            cases pw with
            | exc => simpa [secBody, h] using coupled_clear1 he
            | ok =>
              cases pr with
              | timeout => simpa [secBody, h] using he
              | exc => simpa [secBody, h] using coupled_clear1 he
              | data rs =>
                cases rs with
                | nil => simpa [secBody, h] using he
                | cons c cs =>
                  cases hw : (ensure_nport1_connected c1 s').state.nport2_writer with
                  | false => simpa [secBody, h, hw] using he
                  | true =>
                    cases rp with
                    | ok => simpa [secBody, h, hw] using he
                    | exc => simpa [secBody, h, hw] using coupled_clear1 he
    cases h2 : s.nport2_reader with
    | true => simpa [secIter, h2] using body s hc
    | false =>
      cases c2 with
      | true =>
        simpa [secIter, h2, connect_nport2] using
          body (connect_nport2 true s).2 (coupled_connect2 true hc)
      | false => simpa [secIter, h2, connect_nport2] using hc

theorem C10_handles_paired_witness :
    ((connect_nport1 true allConnected).2.nport1_reader = true ∧
     (connect_nport1 true allConnected).2.nport1_writer = true ∧
     connect_nport1 false allConnected = (false, allConnected) ∧
     (connect_nport2 true allConnected).2.nport2_reader = true ∧
     (connect_nport2 true allConnected).2.nport2_writer = true ∧
     connect_nport2 false allConnected = (false, allConnected)) ∧
    coupled (sessIter ⟨RdRes.data [1], true, WRes.ok, RdRes.data [2],
        WRes.exc⟩ allConnected).state ∧
    coupled (secIter ⟨true, RdRes.data [1], true, WRes.exc, RdRes.timeout,
        WRes.ok⟩ allConnected).state :=
  ⟨C10_handles_paired.1 allConnected,
   C10_handles_paired.2.2.1 _ allConnected ⟨rfl, rfl⟩,
   C10_handles_paired.2.2.2 _ allConnected ⟨rfl, rfl⟩⟩

end ModbusBridge
